import Mathlib

/-!
# Verification of the live-updating view library (`render` / `spork`)

Shallow embedding of the repository's view-model lifecycle:

* `src/spork/decorators.py` — duck-typed capability probes
  (`is_html_representable`, `is_markdown_representable`), the `renderable`
  decorator's `_repr_mimebundle_` content negotiation, and the `auto_update`
  decorator's `__setattr__` wrapper.
* `src/spork/models.py` (and the identical `src/render/models.py`) —
  `ViewModel._repr_html_`, `ViewModel.update`, `AutoViewModel.__setattr__`,
  and the pydantic-backed attribute store with its `display_id` field
  (`Field(default_factory=lambda: str(uuid.uuid4()), exclude=True)`).
* `src/spork/__init__.py` — the `Markdown` auto-updating text accumulator.

Python values relevant to the render contract are modelled by `PyVal`:
either a `str`, or an object carrying optional `to_html` / `to_markdown`
attributes.  An attribute is either a callable of some arity (its call
result abstracted as the string it returns) or a plain non-callable value.
Fallible Python code is modelled with `Except PyError`.
-/

/-- A Python attribute as seen by the capability probes: a callable with a
given number of required positional arguments (whose zero-argument call,
when legal, returns a string), or a plain non-callable value. -/
inductive PyAttr where
  | method (arity : Nat) (ret : String)
  | plain
deriving DecidableEq

/-- A Python value as far as the render contract observes it: a `str`, or
an object with optional `to_html` / `to_markdown` attributes (`obj h m`
where `h` models `to_html` and `m` models `to_markdown`).  Values with
neither attribute (ints, None, ...) are `obj none none`. -/
inductive PyVal where
  | str (s : String)
  | obj (to_html : Option PyAttr) (to_markdown : Option PyAttr)
deriving DecidableEq

/-- Errors raised by the embedded code paths. -/
inductive PyError where
  | valueError (msg : String)
  | typeError
  | fieldError (name : String)
deriving DecidableEq

def exceptDecEq [DecidableEq ε] [DecidableEq α] : DecidableEq (Except ε α) :=
  fun a b =>
    match a, b with
    | .ok x, .ok y =>
        if h : x = y then isTrue (by rw [h]) else isFalse (fun c => h (Except.ok.inj c))
    | .error x, .error y =>
        if h : x = y then isTrue (by rw [h]) else isFalse (fun c => h (Except.error.inj c))
    | .ok _, .error _ => isFalse (fun c => Except.noConfusion c)
    | .error _, .ok _ => isFalse (fun c => Except.noConfusion c)

instance [DecidableEq ε] [DecidableEq α] : DecidableEq (Except ε α) := exceptDecEq

/-- Python `callable(a)` for an attribute value. -/
def PyAttr.callable : PyAttr → Bool
  | .method _ _ => true
  | .plain => false

/-- Calling an attribute with zero arguments (`a()`): returns the method's
result when it is a zero-arity callable, raises `TypeError` when it needs
arguments or is not callable at all. -/
def PyAttr.call0 : PyAttr → Except PyError String
  | .method 0 r => .ok r
  | .method (_ + 1) _ => .error .typeError
  | .plain => .error .typeError

/-- Attribute access `getattr(obj, "to_html")`: strings (and objects without the attribute)
have no `to_html`. -/
def hasattrToHtml : PyVal → Option PyAttr
  | .str _ => none
  | .obj h _ => h

/-- Attribute access `getattr(obj, "to_markdown")`. -/
def hasattrToMarkdown : PyVal → Option PyAttr
  | .str _ => none
  | .obj _ m => m

/-- Invoking `obj.attr()` after a `hasattr` probe: raises `AttributeError`-like
failure when absent (modelled as `typeError`; this path is unreachable in
the guarded call sites), otherwise calls with zero arguments. -/
def getattrCall0 : Option PyAttr → Except PyError String
  | none => .error .typeError
  | some a => a.call0

/-- Python `isinstance(rendered, str)`. -/
def isStr : PyVal → Bool
  | .str _ => true
  | .obj _ _ => false

/-- Probe `decorators.is_html_representable`:
`hasattr(obj, "to_html") and callable(obj.to_html)`. -/
def is_html_representable (v : PyVal) : Bool :=
  match hasattrToHtml v with
  | some a => a.callable
  | none => false

/-- Probe `decorators.is_markdown_representable`:
`hasattr(obj, "to_markdown") and callable(obj.to_markdown)`. -/
def is_markdown_representable (v : PyVal) : Bool :=
  match hasattrToMarkdown v with
  | some a => a.callable
  | none => false

/-- Following the spec's words (§4.1), for comparison with the code's
probe: the value "exposes a callable, zero-argument member that can be
invoked to obtain a string (an HTML fragment)". -/
def specHtmlRepresentable (v : PyVal) : Bool :=
  match hasattrToHtml v with
  | some (.method 0 _) => true
  | _ => false

/-- Following the spec's words (§4.1): the analogous zero-argument
`to_markdown` condition. -/
def specMarkdownRepresentable (v : PyVal) : Bool :=
  match hasattrToMarkdown v with
  | some (.method 0 _) => true
  | _ => false

/-- The `default` parameter of the `renderable` decorator
(`Literal["markdown", "html"]`, defaulting to `"html"`). -/
inductive DefaultFmt where
  | html
  | markdown
deriving DecidableEq

/-- MIME key used for a plain-string render result under a given default:
`"text/html"` when `default == "html"`, else `"text/markdown"`. -/
def DefaultFmt.mime : DefaultFmt → String
  | .html => "text/html"
  | .markdown => "text/markdown"

/-- A display payload: a single-entry MIME bundle, or the result of
delegating to the host's generic `display_formatter` (opaque here). -/
inductive Payload where
  | single (mime : String) (content : String)
  | formatted
deriving DecidableEq

/-- The `renderable` decorator's `_repr_mimebundle_` applied to the result of
`self.render()`.  `hasFormatter` models
`get_ipython() is not None and get_ipython().display_formatter is not None`. -/
def reprMimebundle (dflt : DefaultFmt) (hasFormatter : Bool) (rendered : PyVal) :
    Except PyError Payload :=
  match rendered with
  | .str s => .ok (.single dflt.mime s)
  | .obj h m =>
      if is_markdown_representable (.obj h m) then
        (getattrCall0 m).map (Payload.single "text/markdown")
      else if is_html_representable (.obj h m) then
        (getattrCall0 h).map (Payload.single "text/html")
      else if hasFormatter then
        .ok .formatted
      else
        .error (.valueError "render() must return a string or a VDOM object")

/-- Method `ViewModel._repr_html_` (identical in `spork/models.py` and
`render/models.py`) applied to the result of `self.render()`: a string is
returned as-is; otherwise `hasattr(rendered, "to_html")` leads to
`rendered.to_html()` (with no callability check); otherwise
`ValueError` is raised.  There is no Markdown branch. -/
def reprHtml (rendered : PyVal) : Except PyError String :=
  match rendered with
  | .str s => .ok s
  | .obj h _ =>
      match h with
      | some a => a.call0
      | none => .error (.valueError "render() must return a string or a VDOM object")

/-- State of a pydantic-backed view-model instance.  `declared` holds the
user-declared field names of the subclass (the base class additionally
declares `display_id`, kept as its own component since it is marked
`Field(..., exclude=True)`); `attrs` holds the current values of the
user-declared fields. -/
structure ViewState where
  declared : List String
  attrs : List (String × PyVal)
  display_id : PyVal
deriving DecidableEq

/-- Association-list update, modelling `self.__dict__[name] = value`. -/
def setAssoc : List (String × PyVal) → String → PyVal → List (String × PyVal)
  | [], n, v => [(n, v)]
  | (k, w) :: rest, n, v =>
      if k = n then (k, v) :: rest else (k, w) :: setAssoc rest n v

/-- Association-list lookup, modelling `self.__dict__[name]`. -/
def lookupA : List (String × PyVal) → String → Option PyVal
  | [], _ => none
  | (k, w) :: rest, n => if k = n then some w else lookupA rest n

/-- Pydantic `BaseModel.__setattr__`: setting a declared field (including
`display_id`) stores the value; setting an undeclared name raises
(`ValueError: "..." object has no field "name"`, modelled as
`fieldError`). -/
def pydSetattr (s : ViewState) (name : String) (v : PyVal) :
    Except PyError ViewState :=
  if name = "display_id" then
    .ok { s with display_id := v }
  else if s.declared.contains name then
    .ok { s with attrs := setAssoc s.attrs name v }
  else
    .error (.fieldError name)

/-- A call made to the host display surface (`IPython.display.display`):
either a new entry (`publish`, no `update=True`) or an in-place refresh
(`update=True`), carrying the negotiated payload of the object being
displayed and the `display_id` it was tagged with. -/
inductive DisplayMsg where
  | publish (payload : Except PyError Payload) (id : PyVal)
  | refresh (payload : Except PyError Payload) (id : PyVal)
deriving DecidableEq

/-- The payload component of a display-surface call. -/
def DisplayMsg.payload : DisplayMsg → Except PyError Payload
  | .publish p _ => p
  | .refresh p _ => p

/-- A subclass's `render` method: a function of the full instance state. -/
abbrev Render := ViewState → PyVal

/-- The display-surface call made by `ViewModel.update`:
`display(self, update=True, display_id=self.display_id)`.  The host turns
the object into a payload via `_repr_html_` (served as `text/html`). -/
def ViewModel.updateMsg (render : Render) (s : ViewState) : DisplayMsg :=
  .refresh ((reprHtml (render s)).map (Payload.single "text/html")) s.display_id

/-- Method `ViewModel.update`: emits the refresh call and leaves the instance
state untouched. -/
def ViewModel.update (render : Render) (s : ViewState) : ViewState × DisplayMsg :=
  (s, ViewModel.updateMsg render s)

/-- Method `AutoViewModel.__setattr__`: first `super().__setattr__(name, value)`
(which may raise), then `if name != "display_id": self.update()`.
Returns the new state and the list of display-surface calls made. -/
def AutoViewModel.setattrUpd (render : Render) (s : ViewState) (name : String)
    (v : PyVal) : Except PyError (ViewState × List DisplayMsg) :=
  match pydSetattr s name v with
  | .error e => .error e
  | .ok s' =>
      if name = "display_id" then
        .ok (s', [])
      else
        .ok (s', [ViewModel.updateMsg render s'])

/-- One hexadecimal digit, lower case. -/
def hexChar (n : Nat) : Char :=
  if n < 10 then Char.ofNat (48 + n) else Char.ofNat (87 + n)

/-- The `len` hexadecimal digits of `n`, most significant first. -/
def hexChunk (len : Nat) (n : Nat) : List Char :=
  (List.range len).map (fun i => hexChar (n / 16 ^ (len - 1 - i) % 16))

/-- Result of `str(uuid.uuid4())` for a draw of 128 random bits: the canonical
8-4-4-4-12 grouping of 32 hex digits (version/variant bit forcing does not
affect shape and is elided). -/
def uuid4String (seed : Nat) : String :=
  String.mk (hexChunk 8 (seed / 2 ^ 96) ++ '-' ::
    (hexChunk 4 (seed / 2 ^ 80 % 2 ^ 16) ++ '-' ::
    (hexChunk 4 (seed / 2 ^ 64 % 2 ^ 16) ++ '-' ::
    (hexChunk 4 (seed / 2 ^ 48 % 2 ^ 16) ++ '-' ::
    hexChunk 12 (seed % 2 ^ 48)))))

/-- Pydantic construction of a view-model instance: the caller's field
values are validated and stored (construction bypasses `__setattr__`, so
no display call is made), and `display_id` is filled by its
`default_factory`, `str(uuid.uuid4())`. -/
def ViewModel.init (declared : List String) (inits : List (String × PyVal))
    (seed : Nat) : ViewState :=
  { declared := declared, attrs := inits, display_id := .str (uuid4String seed) }

/-- Pydantic `.dict()` / serialization: the declared fields in order with
their current values.  `display_id` is declared with `exclude=True`, so it
is dropped; only the user-declared fields (`ViewState.declared`) appear. -/
def modelDump (s : ViewState) : List (String × PyVal) :=
  s.declared.filterMap (fun n => (lookupA s.attrs n).map (fun v => (n, v)))

/-- Plain `object.__setattr__` on a (non-pydantic) instance: total. -/
def objectSetattr (attrs : List (String × PyVal)) (name : String) (v : PyVal) :
    List (String × PyVal) :=
  setAssoc attrs name v

/-- The `__setattr__` installed by the `auto_update` decorator: call the
original setattr (here: plain object attribute storage), then
`if hasattr(self, "update") and name != "display_id": self.update()`.
`hasUpd` models `hasattr(self, "update")`; `upd` is the class's `update`
method, abstracted as the display call it makes from the new state. -/
def autoUpdateSetattr (hasUpd : Bool)
    (upd : List (String × PyVal) → DisplayMsg)
    (attrs : List (String × PyVal)) (name : String) (v : PyVal) :
    List (String × PyVal) × List DisplayMsg :=
  let a' := objectSetattr attrs name v
  if hasUpd && name != "display_id" then (a', [upd a']) else (a', [])

/-- State of the `Markdown` auto-updating text accumulator
(`spork/__init__.py`): its single declared field `content` plus the
inherited `display_id`. -/
structure MarkdownState where
  display_id : String
  content : String
deriving DecidableEq

/-- Method `Markdown.render`: `return self.content`. -/
def Markdown.render (s : MarkdownState) : PyVal :=
  .str s.content

/-- The refresh call emitted by `update()` on a `Markdown` instance: the
class is decorated with `@markdown`, so the host uses its
`_repr_mimebundle_` with `default="markdown"`. -/
def Markdown.updateMsg (hasFormatter : Bool) (s : MarkdownState) : DisplayMsg :=
  .refresh (reprMimebundle .markdown hasFormatter (Markdown.render s)) (.str s.display_id)

/-- Assignment `self.content = v` on a `Markdown` instance: the
auto-update `__setattr__` stores the value and, since `"content" !=
"display_id"`, emits exactly one refresh from the new state. -/
def Markdown.setContent (hasFormatter : Bool) (s : MarkdownState) (v : String) :
    MarkdownState × List DisplayMsg :=
  let s' : MarkdownState := { s with content := v }
  (s', [Markdown.updateMsg hasFormatter s'])

/-- Method `Markdown.append`: `self.content += content`. -/
def Markdown.append (hasFormatter : Bool) (s : MarkdownState) (t : String) :
    MarkdownState × List DisplayMsg :=
  Markdown.setContent hasFormatter s (s.content ++ t)

/-- Specialisation of `Except.isOk` to the embedded error type. -/
def isOkE : Except PyError α → Bool
  | .ok _ => true
  | .error _ => false

/-- Whether an embedded call raised the content `ValueError` (as opposed
to succeeding or raising a different exception). -/
def isValueError {α : Type} : Except PyError α → Bool
  | .error (.valueError _) => true
  | _ => false

/-- A sample subclass `render` that reads only the user fields, as every
`render` in the repository does (`Markdown.render`, the test's
`ChatMessage.render`). -/
def contentRender : Render := fun s =>
  match lookupA s.attrs "content" with
  | some (.str c) => .str c
  | _ => .obj none none

theorem lookupA_setAssoc (l : List (String × PyVal)) (n : String) (v : PyVal) :
    lookupA (setAssoc l n v) n = some v := by
  induction l with
  | nil => simp [setAssoc, lookupA]
  | cons p rest ih =>
      obtain ⟨k, w⟩ := p
      by_cases h : k = n
      · simp [setAssoc, lookupA, h]
      · simp [setAssoc, lookupA, h, ih]

theorem modelDump_keys {s : ViewState} {n : String}
    (h : n ∈ (modelDump s).map Prod.fst) : n ∈ s.declared := by
  obtain ⟨p, hp, rfl⟩ := List.mem_map.1 h
  obtain ⟨k, hk, hfk⟩ := List.mem_filterMap.1 hp
  cases hl : lookupA s.attrs k with
  | none => rw [hl] at hfk; simp at hfk
  | some v =>
      rw [hl] at hfk
      simp only [Option.map_some', Option.some.injEq] at hfk
      rw [← hfk]
      exact hk

theorem uuid4String_length (seed : Nat) : (uuid4String seed).length = 36 := by
  simp [uuid4String, hexChunk, String.length]

theorem uuid4String_ne_empty (seed : Nat) : uuid4String seed ≠ "" := by
  intro h
  have hl := uuid4String_length seed
  rw [h] at hl
  exact absurd hl (by decide)

/-- C1: on an auto-updating view, a successful assignment to a field other
than `display_id` stores the value and makes exactly one display call: a
refresh carrying the payload rendered from the post-assignment state; an
assignment to `display_id` makes no display call.  The same holds for a
class wrapped by the `auto_update` decorator when it has an `update`
member. -/
theorem autoView_setattr_refresh (render : Render) (s : ViewState)
    (name : String) (v : PyVal) (s' : ViewState) (msgs : List DisplayMsg)
    (hok : AutoViewModel.setattrUpd render s name v = .ok (s', msgs)) :
    (name ≠ "display_id" →
        msgs = [ViewModel.updateMsg render s'] ∧ lookupA s'.attrs name = some v)
    ∧ (name = "display_id" → msgs = [])
    ∧ ∀ (upd : List (String × PyVal) → DisplayMsg)
        (attrs : List (String × PyVal)) (n2 : String) (v2 : PyVal),
        n2 ≠ "display_id" →
        (autoUpdateSetattr true upd attrs n2 v2).snd
          = [upd (objectSetattr attrs n2 v2)] := by
  refine ⟨?_, ?_, ?_⟩
  · intro hname
    unfold AutoViewModel.setattrUpd at hok
    cases hpd : pydSetattr s name v with
    | error e => rw [hpd] at hok; exact Except.noConfusion hok
    | ok s0 =>
        rw [hpd] at hok
        dsimp only [] at hok
        rw [if_neg hname] at hok
        simp only [Except.ok.injEq, Prod.mk.injEq] at hok
        obtain ⟨h1, h2⟩ := hok
        subst h1
        refine ⟨h2.symm, ?_⟩
        unfold pydSetattr at hpd
        rw [if_neg hname] at hpd
        split at hpd
        · simp only [Except.ok.injEq] at hpd
          rw [← hpd]
          exact lookupA_setAssoc s.attrs name v
        · exact Except.noConfusion hpd
  · intro hname
    unfold AutoViewModel.setattrUpd at hok
    cases hpd : pydSetattr s name v with
    | error e => rw [hpd] at hok; exact Except.noConfusion hok
    | ok s0 =>
        rw [hpd] at hok
        dsimp only [] at hok
        rw [if_pos hname] at hok
        simp only [Except.ok.injEq, Prod.mk.injEq] at hok
        exact hok.2.symm
  · intro upd attrs n2 v2 hn2
    simp [autoUpdateSetattr, hn2]

theorem autoView_setattr_refresh_witness :
    ("content" : String) ≠ "display_id"
    ∧ ([DisplayMsg.refresh (.ok (.single "text/html" "")) (.str "id0")]
        = [ViewModel.updateMsg (fun _ => PyVal.str "")
            ⟨["content"], [("content", PyVal.str "x")], PyVal.str "id0"⟩]
        ∧ lookupA [("content", PyVal.str "x")] "content" = some (PyVal.str "x")) :=
  ⟨by decide,
    (autoView_setattr_refresh (fun _ => PyVal.str "")
      ⟨["content"], [("content", PyVal.str "")], PyVal.str "id0"⟩ "content"
      (PyVal.str "x")
      ⟨["content"], [("content", PyVal.str "x")], PyVal.str "id0"⟩
      [DisplayMsg.refresh (.ok (.single "text/html" "")) (.str "id0")]
      (by decide)).1 (by decide)⟩

/-- C4 counterexample: `display_id` is an ordinary (assignable) pydantic
field — `AutoViewModel.__setattr__` accepts a direct assignment to it and
the token changes, so it is not immutable across arbitrary attribute
mutations. -/
theorem display_id_immutable_counterexample :
    AutoViewModel.setattrUpd (fun _ => PyVal.str "")
        ⟨["content"], [("content", PyVal.str "")], PyVal.str "id0"⟩
        "display_id" (PyVal.str "hijack")
      = .ok (⟨["content"], [("content", PyVal.str "")], PyVal.str "hijack"⟩, [])
    ∧ (PyVal.str "hijack" ≠ PyVal.str "id0") := by decide

/-- C4 amended: `display_id` is assigned at construction from
`str(uuid.uuid4())` and is a non-empty (36-character) string; it stays
constant across assignments to any *other* attribute and across `update()`
calls; a direct assignment to `display_id` itself, however, is permitted
and changes it (the counterexample). -/
theorem display_id_stable_amended (declared : List String)
    (inits : List (String × PyVal)) (seed : Nat) (render : Render)
    (s s' : ViewState) (name : String) (v : PyVal) (msgs : List DisplayMsg)
    (hok : AutoViewModel.setattrUpd render s name v = .ok (s', msgs))
    (hname : name ≠ "display_id") :
    (ViewModel.init declared inits seed).display_id = .str (uuid4String seed)
    ∧ uuid4String seed ≠ ""
    ∧ (uuid4String seed).length = 36
    ∧ s'.display_id = s.display_id
    ∧ (ViewModel.update render s).fst = s := by
  refine ⟨rfl, uuid4String_ne_empty seed, uuid4String_length seed, ?_, rfl⟩
  unfold AutoViewModel.setattrUpd at hok
  cases hpd : pydSetattr s name v with
  | error e => rw [hpd] at hok; exact Except.noConfusion hok
  | ok s0 =>
      rw [hpd] at hok
      dsimp only [] at hok
      rw [if_neg hname] at hok
      simp only [Except.ok.injEq, Prod.mk.injEq] at hok
      obtain ⟨h1, _⟩ := hok
      subst h1
      unfold pydSetattr at hpd
      rw [if_neg hname] at hpd
      split at hpd
      · simp only [Except.ok.injEq] at hpd
        rw [← hpd]
      · exact Except.noConfusion hpd

theorem display_id_stable_amended_witness :
    AutoViewModel.setattrUpd contentRender
        ⟨["content"], [("content", PyVal.str "")], PyVal.str "id0"⟩
        "content" (PyVal.str "x")
      = .ok (⟨["content"], [("content", PyVal.str "x")], PyVal.str "id0"⟩,
          [DisplayMsg.refresh (.ok (.single "text/html" "x")) (.str "id0")])
    ∧ ("content" : String) ≠ "display_id"
    ∧ ((ViewModel.init ["content"] [] 0).display_id = .str (uuid4String 0)
        ∧ uuid4String 0 ≠ ""
        ∧ (uuid4String 0).length = 36
        ∧ (⟨["content"], [("content", PyVal.str "x")], PyVal.str "id0"⟩ : ViewState).display_id
            = (⟨["content"], [("content", PyVal.str "")], PyVal.str "id0"⟩ : ViewState).display_id
        ∧ (ViewModel.update contentRender
            ⟨["content"], [("content", PyVal.str "")], PyVal.str "id0"⟩).fst
            = ⟨["content"], [("content", PyVal.str "")], PyVal.str "id0"⟩) :=
  ⟨by decide, by decide,
    display_id_stable_amended ["content"] [] 0 contentRender
      ⟨["content"], [("content", PyVal.str "")], PyVal.str "id0"⟩
      ⟨["content"], [("content", PyVal.str "x")], PyVal.str "id0"⟩
      "content" (PyVal.str "x")
      [DisplayMsg.refresh (.ok (.single "text/html" "x")) (.str "id0")]
      (by decide) (by decide)⟩

/-- C6: the `Markdown` accumulator (as declared: an auto-updating view
with a single `content` field, decorated `@markdown`).  Starting from
empty content, `append("H")` yields exactly one refresh with payload
`"H"`, a further `append("i")` exactly one refresh with payload `"Hi"`;
in general `append(t)` replaces `content` with the old content followed by
`t`, leaves `display_id` unchanged, and publishes exactly the new content
as a `text/markdown` refresh. -/
theorem markdown_append_scenario (hf : Bool) (id0 : String)
    (s : MarkdownState) (t : String) :
    Markdown.append hf ⟨id0, ""⟩ "H"
      = (⟨id0, "H"⟩, [DisplayMsg.refresh (.ok (.single "text/markdown" "H")) (.str id0)])
    ∧ Markdown.append hf ⟨id0, "H"⟩ "i"
      = (⟨id0, "Hi"⟩, [DisplayMsg.refresh (.ok (.single "text/markdown" "Hi")) (.str id0)])
    ∧ (Markdown.append hf s t).fst.content = s.content ++ t
    ∧ (Markdown.append hf s t).fst.display_id = s.display_id
    ∧ (Markdown.append hf s t).snd
      = [DisplayMsg.refresh (.ok (.single "text/markdown" (s.content ++ t)))
          (.str s.display_id)] :=
  ⟨rfl, rfl, rfl, rfl, rfl⟩

/-- C2 counterexample: a render result that satisfies the
Markdown-representable capability but not the HTML one.  The claim's
negotiation order would produce its `to_markdown()` output, but
`ViewModel._repr_html_` — one of the negotiation steps the claim covers —
has no Markdown branch and raises instead. -/
theorem negotiation_order_counterexample :
    is_markdown_representable (PyVal.obj none (some (.method 0 "MD"))) = true
    ∧ getattrCall0 (some (PyAttr.method 0 "MD")) = .ok "MD"
    ∧ reprHtml (PyVal.obj none (some (.method 0 "MD")))
        = .error (.valueError "render() must return a string or a VDOM object") := by
  decide

/-- C2 amended: the `_repr_mimebundle_` negotiation follows the claimed
order — string under the configured default, else Markdown capability,
else HTML capability, else fallback formatter or content error.  The
`_repr_html_` negotiation follows string → `to_html` → content error and
never consults the Markdown capability. -/
theorem negotiation_order_amended (d : DefaultFmt) (hf : Bool) (s : String)
    (h m : Option PyAttr) (md ht : String) :
    reprMimebundle d hf (.str s) = .ok (.single d.mime s)
    ∧ reprHtml (.str s) = .ok s
    ∧ (m = some (.method 0 md) →
        reprMimebundle d hf (.obj h m) = .ok (.single "text/markdown" md))
    ∧ (is_markdown_representable (.obj h m) = false → h = some (.method 0 ht) →
        reprMimebundle d hf (.obj h m) = .ok (.single "text/html" ht))
    ∧ (is_markdown_representable (.obj h m) = false →
        is_html_representable (.obj h m) = false →
        reprMimebundle d hf (.obj h m)
          = if hf then .ok .formatted
            else .error (.valueError "render() must return a string or a VDOM object"))
    ∧ (h = some (.method 0 ht) → reprHtml (.obj h m) = .ok ht)
    ∧ (h = none →
        reprHtml (.obj h m)
          = .error (.valueError "render() must return a string or a VDOM object")) := by
  refine ⟨rfl, rfl, ?_, ?_, ?_, ?_, ?_⟩
  · intro hm
    subst hm
    simp [reprMimebundle, is_markdown_representable, hasattrToMarkdown,
      PyAttr.callable, getattrCall0, PyAttr.call0, Except.map]
  · intro hmd hh
    subst hh
    simp [reprMimebundle, hmd, is_html_representable, hasattrToHtml,
      PyAttr.callable, getattrCall0, PyAttr.call0, Except.map]
  · intro hmd hht
    simp [reprMimebundle, hmd, hht]
  · intro hh
    subst hh
    simp [reprHtml, PyAttr.call0]
  · intro hh
    subst hh
    simp [reprHtml]

theorem negotiation_order_amended_witness :
    (some (PyAttr.method 0 "MD") = some (PyAttr.method 0 "MD")
      ∧ reprMimebundle .html true
          (PyVal.obj (some (.method 0 "H")) (some (.method 0 "MD")))
        = .ok (.single "text/markdown" "MD"))
    ∧ ((none : Option PyAttr) = none
      ∧ reprHtml (PyVal.obj none (some (.method 0 "MD")))
        = .error (.valueError "render() must return a string or a VDOM object")) :=
  ⟨⟨rfl,
    (negotiation_order_amended .html true "" (some (.method 0 "H"))
      (some (.method 0 "MD")) "MD" "H").2.2.1 rfl⟩,
   ⟨rfl,
    (negotiation_order_amended .html true "" none
      (some (.method 0 "MD")) "MD" "H").2.2.2.2.2.2 rfl⟩⟩

/-- The mapped result of an attribute call is never the content
`ValueError`: it is `ok`, or `TypeError` for a wrong-arity or non-callable
attribute. -/
theorem isValueError_getattrCall0_map (o : Option PyAttr) (f : String → Payload) :
    isValueError ((getattrCall0 o).map f) = false := by
  rcases o with _ | a
  · rfl
  · cases a with
    | plain => rfl
    | method k ret => cases k with
      | zero => rfl
      | succ k => rfl

/-- C3 counterexample: the claim's "if and only if" fails for
`_repr_html_`: it raises the content error for a Markdown-representable
result, and also when a generic fallback formatter is available (it never
consults one), while `_repr_mimebundle_` under the same conditions uses
the fallback. -/
theorem content_error_iff_counterexample :
    is_markdown_representable (PyVal.obj none none) = false
    ∧ is_html_representable (PyVal.obj none none) = false
    ∧ reprMimebundle .html true (PyVal.obj none none) = .ok .formatted
    ∧ isValueError (reprHtml (PyVal.obj none none)) = true
    ∧ is_markdown_representable (PyVal.obj none (some (.method 0 "MD"))) = true
    ∧ isValueError (reprHtml (PyVal.obj none (some (.method 0 "MD")))) = true := by
  decide

/-- C3 amended: `_repr_mimebundle_` raises the content `ValueError` iff
the render result is not a string, satisfies neither capability, and no
generic fallback formatter is available; `_repr_html_` raises it iff the
result is not a string and has no `to_html` attribute — regardless of the
Markdown capability or of any fallback formatter.  Both surface the error
synchronously as the call's result (`Except.error`), never swallowing
it. -/
theorem content_error_iff_amended (d : DefaultFmt) (hf : Bool) (r : PyVal) :
    (isValueError (reprMimebundle d hf r) = true
      ↔ (isStr r = false ∧ is_markdown_representable r = false
          ∧ is_html_representable r = false ∧ hf = false))
    ∧ (isValueError (reprHtml r) = true
      ↔ (isStr r = false ∧ hasattrToHtml r = none)) := by
  rcases r with s | ⟨h, m⟩
  · simp [reprMimebundle, reprHtml, isStr, isValueError]
  · constructor
    · by_cases h1 : is_markdown_representable (.obj h m) = true
      · simp [reprMimebundle, h1, isValueError_getattrCall0_map]
      · by_cases h2 : is_html_representable (.obj h m) = true
        · simp [reprMimebundle, h1, h2, isValueError_getattrCall0_map]
        · cases hf
          · simp [reprMimebundle, h1, h2, isValueError, isStr]
          · simp [reprMimebundle, h1, h2, isValueError, isStr]
    · rcases h with _ | a
      · simp [reprHtml, isValueError, isStr, hasattrToHtml]
      · cases a with
        | plain => simp [reprHtml, isValueError, isStr, hasattrToHtml, PyAttr.call0]
        | method k ret => cases k with
          | zero => simp [reprHtml, isValueError, isStr, hasattrToHtml, PyAttr.call0]
          | succ k => simp [reprHtml, isValueError, isStr, hasattrToHtml, PyAttr.call0]

/-- C5 counterexample: an object whose `to_html` is a callable that
requires an argument.  The code's probe accepts it (`hasattr` and
`callable` only), yet it has no zero-argument member that can be invoked
to obtain a string — invoking it with zero arguments raises. -/
theorem capability_check_counterexample :
    is_html_representable (PyVal.obj (some (.method 1 "H")) none) = true
    ∧ specHtmlRepresentable (PyVal.obj (some (.method 1 "H")) none) = false
    ∧ getattrCall0 (some (PyAttr.method 1 "H")) = .error .typeError := by
  decide

/-- C5 amended: `is_html_representable(v)` returns true iff `v` exposes a
*callable* member named `to_html` — arity and return type are not checked,
so a callable requiring arguments also passes; the spec's "callable,
zero-argument member invocable to obtain a string" condition is exactly
the condition under which the zero-argument call succeeds, and it is
strictly stronger than the code's probe.  Analogously for
`is_markdown_representable` / `to_markdown`.  Both probes are total,
state-free boolean functions of their argument. -/
theorem capability_check_amended (v : PyVal) :
    (is_html_representable v = true
      ↔ ∃ a, hasattrToHtml v = some a ∧ a.callable = true)
    ∧ (is_markdown_representable v = true
      ↔ ∃ a, hasattrToMarkdown v = some a ∧ a.callable = true)
    ∧ (specHtmlRepresentable v = true
      ↔ ∃ r, getattrCall0 (hasattrToHtml v) = .ok r)
    ∧ (specMarkdownRepresentable v = true
      ↔ ∃ r, getattrCall0 (hasattrToMarkdown v) = .ok r)
    ∧ (specHtmlRepresentable v = true → is_html_representable v = true)
    ∧ (specMarkdownRepresentable v = true → is_markdown_representable v = true) := by
  rcases v with s | ⟨h, m⟩
  · simp [is_html_representable, is_markdown_representable, specHtmlRepresentable,
      specMarkdownRepresentable, hasattrToHtml, hasattrToMarkdown, getattrCall0]
  · rcases h with _ | (⟨(_ | kh), rh⟩ | ⟨⟩) <;>
      rcases m with _ | (⟨(_ | km), rm⟩ | ⟨⟩) <;>
      simp [is_html_representable, is_markdown_representable, specHtmlRepresentable,
        specMarkdownRepresentable, hasattrToHtml, hasattrToMarkdown, getattrCall0,
        PyAttr.callable, PyAttr.call0]

theorem capability_check_amended_witness :
    specHtmlRepresentable (PyVal.obj (some (.method 0 "H")) none) = true
    ∧ is_html_representable (PyVal.obj (some (.method 0 "H")) none) = true :=
  ⟨by decide,
    (capability_check_amended (PyVal.obj (some (.method 0 "H")) none)).2.2.2.2.1
      (by decide)⟩

/-- C7 counterexample: a render result exposing *both* `to_markdown` and
`to_html`.  The `_repr_mimebundle_` negotiation prefers the Markdown
output, so the payload is not the `to_html()` return value, contrary to
the claim. -/
theorem payload_identity_counterexample :
    reprMimebundle .html true (PyVal.obj (some (.method 0 "H")) (some (.method 0 "M")))
      = .ok (.single "text/markdown" "M")
    ∧ reprMimebundle .html true (PyVal.obj (some (.method 0 "H")) (some (.method 0 "M")))
      ≠ .ok (.single "text/html" "H") := by
  decide

/-- C7 amended: a string render result becomes the payload verbatim under
both negotiation steps; an object's `to_html()` return value becomes the
payload verbatim in `_repr_html_` always, and in `_repr_mimebundle_`
exactly when the object is not also Markdown-representable — in that case
the Markdown output is preferred. -/
theorem payload_identity_amended (d : DefaultFmt) (hf : Bool) (s ht md : String)
    (h m : Option PyAttr) :
    reprHtml (.str s) = .ok s
    ∧ reprMimebundle d hf (.str s) = .ok (.single d.mime s)
    ∧ (h = some (.method 0 ht) → reprHtml (.obj h m) = .ok ht)
    ∧ (h = some (.method 0 ht) → is_markdown_representable (.obj h m) = false →
        reprMimebundle d hf (.obj h m) = .ok (.single "text/html" ht))
    ∧ (h = some (.method 0 ht) → m = some (.method 0 md) →
        reprMimebundle d hf (.obj h m) = .ok (.single "text/markdown" md)) := by
  refine ⟨rfl, rfl, ?_, ?_, ?_⟩
  · intro hh
    subst hh
    simp [reprHtml, PyAttr.call0]
  · intro hh hmd
    subst hh
    simp [reprMimebundle, hmd, is_html_representable, hasattrToHtml,
      PyAttr.callable, getattrCall0, PyAttr.call0, Except.map]
  · intro hh hm
    subst hh
    subst hm
    simp [reprMimebundle, is_markdown_representable, hasattrToMarkdown,
      PyAttr.callable, getattrCall0, PyAttr.call0, Except.map]

theorem payload_identity_amended_witness :
    (some (PyAttr.method 0 "H") = some (PyAttr.method 0 "H")
      ∧ reprHtml (PyVal.obj (some (.method 0 "H")) none) = .ok "H")
    ∧ (is_markdown_representable (PyVal.obj (some (.method 0 "H")) none) = false
      ∧ reprMimebundle .html true (PyVal.obj (some (.method 0 "H")) none)
        = .ok (.single "text/html" "H")) :=
  ⟨⟨rfl,
    (payload_identity_amended .html true "" "H" "M" (some (.method 0 "H")) none).2.2.1
      rfl⟩,
   ⟨by decide,
    (payload_identity_amended .html true "" "H" "M" (some (.method 0 "H")) none).2.2.2.1
      rfl (by decide)⟩⟩

/-- C8: the identity token does not flow into the payload: the refresh
sent by `update()` computes its payload from the render result alone, so
two instances that differ only in `display_id` and have the same render
result produce identical payload content; and pydantic serialization
(`display_id` declared with `exclude=True`) contains no `display_id`
entry. -/
theorem token_not_in_payload (render : Render) (s1 s2 : ViewState)
    (hattrs : s1.attrs = s2.attrs) (hdecl : s1.declared = s2.declared)
    (hrender : render s1 = render s2)
    (hnot : "display_id" ∉ s1.declared) :
    (ViewModel.updateMsg render s1).payload = (ViewModel.updateMsg render s2).payload
    ∧ modelDump s1 = modelDump s2
    ∧ "display_id" ∉ (modelDump s1).map Prod.fst := by
  refine ⟨?_, ?_, fun hmem => hnot (modelDump_keys hmem)⟩
  · simp [ViewModel.updateMsg, DisplayMsg.payload, hrender]
  · unfold modelDump
    rw [hdecl, hattrs]

theorem token_not_in_payload_witness :
    ((⟨["content"], [("content", PyVal.str "hi")], PyVal.str "idA"⟩ : ViewState).attrs
        = (⟨["content"], [("content", PyVal.str "hi")], PyVal.str "idB"⟩ : ViewState).attrs
      ∧ contentRender ⟨["content"], [("content", PyVal.str "hi")], PyVal.str "idA"⟩
        = contentRender ⟨["content"], [("content", PyVal.str "hi")], PyVal.str "idB"⟩
      ∧ ("display_id" : String) ∉ ["content"])
    ∧ ((ViewModel.updateMsg contentRender
          ⟨["content"], [("content", PyVal.str "hi")], PyVal.str "idA"⟩).payload
        = (ViewModel.updateMsg contentRender
          ⟨["content"], [("content", PyVal.str "hi")], PyVal.str "idB"⟩).payload
      ∧ modelDump ⟨["content"], [("content", PyVal.str "hi")], PyVal.str "idA"⟩
        = modelDump ⟨["content"], [("content", PyVal.str "hi")], PyVal.str "idB"⟩
      ∧ ("display_id" : String) ∉
          (modelDump ⟨["content"], [("content", PyVal.str "hi")], PyVal.str "idA"⟩).map
            Prod.fst) :=
  ⟨⟨rfl, by decide, by decide⟩,
    token_not_in_payload contentRender
      ⟨["content"], [("content", PyVal.str "hi")], PyVal.str "idA"⟩
      ⟨["content"], [("content", PyVal.str "hi")], PyVal.str "idB"⟩
      rfl rfl (by decide) (by decide)⟩

/-- C9 counterexample: attribute mutation can fail — assigning a name that
is not a declared field raises pydantic's "object has no field" error, so
the content error is not the only failure mode. -/
theorem mutation_never_fails_counterexample :
    AutoViewModel.setattrUpd (fun _ => PyVal.str "")
        ⟨["content"], [("content", PyVal.str "")], PyVal.str "id0"⟩
        "oops" (PyVal.str "x")
      = .error (.fieldError "oops") := by
  decide

/-- C9 amended: assignment on an auto-updating view succeeds iff the
target is `display_id` or a declared field (pydantic raises a field error
for undeclared names); when it succeeds it publishes exactly for
non-`display_id` names.  The capability probes themselves are total
boolean functions and cannot fail. -/
theorem mutation_failure_amended (render : Render) (s : ViewState)
    (name : String) (v : PyVal) :
    (isOkE (AutoViewModel.setattrUpd render s name v) = true
      ↔ (name = "display_id" ∨ s.declared.contains name = true))
    ∧ (∀ s' msgs, AutoViewModel.setattrUpd render s name v = .ok (s', msgs) →
        (msgs = [] ↔ name = "display_id")) := by
  unfold AutoViewModel.setattrUpd pydSetattr
  by_cases hname : name = "display_id"
  · simp [hname, isOkE]
  · by_cases hc : name ∈ s.declared
    · simp [hname, hc, isOkE, ViewModel.updateMsg]
    · simp [hname, hc, isOkE]

theorem mutation_failure_amended_witness :
    (isOkE (AutoViewModel.setattrUpd contentRender
        ⟨["content"], [("content", PyVal.str "")], PyVal.str "id0"⟩
        "content" (PyVal.str "x")) = true
      ↔ (("content" : String) = "display_id"
          ∨ (["content"].contains "content") = true))
    ∧ (([DisplayMsg.refresh (.ok (.single "text/html" "x")) (.str "id0")]
          = ([] : List DisplayMsg))
        ↔ ("content" : String) = "display_id") :=
  ⟨(mutation_failure_amended contentRender
      ⟨["content"], [("content", PyVal.str "")], PyVal.str "id0"⟩
      "content" (PyVal.str "x")).1,
   (mutation_failure_amended contentRender
      ⟨["content"], [("content", PyVal.str "")], PyVal.str "id0"⟩
      "content" (PyVal.str "x")).2
      ⟨["content"], [("content", PyVal.str "x")], PyVal.str "id0"⟩
      [DisplayMsg.refresh (.ok (.single "text/html" "x")) (.str "id0")]
      (by decide)⟩

/-- C10: the `auto_update` decorator on a class with no `update` member
still stores the assigned value, raises nothing, and makes no display
call; in general the wrapped `__setattr__` calls `update` exactly when the
object has an `update` attribute and the assigned name is not
`display_id`. -/
theorem auto_update_no_update_member
    (upd : List (String × PyVal) → DisplayMsg)
    (attrs : List (String × PyVal)) (name : String) (v : PyVal) :
    autoUpdateSetattr false upd attrs name v = (objectSetattr attrs name v, [])
    ∧ lookupA (objectSetattr attrs name v) name = some v
    ∧ ∀ hasUpd : Bool,
        (autoUpdateSetattr hasUpd upd attrs name v).fst = objectSetattr attrs name v
        ∧ ((autoUpdateSetattr hasUpd upd attrs name v).snd ≠ []
            ↔ (hasUpd = true ∧ name ≠ "display_id")) := by
  refine ⟨by simp [autoUpdateSetattr], lookupA_setAssoc attrs name v, ?_⟩
  intro hasUpd
  cases hasUpd
  · simp [autoUpdateSetattr]
  · by_cases hname : name = "display_id"
    · simp [autoUpdateSetattr, hname]
    · simp [autoUpdateSetattr, hname]

theorem auto_update_no_update_member_witness :
    autoUpdateSetattr false
        (fun _ => DisplayMsg.refresh (.ok (.single "text/html" "")) (.str "w"))
        [] "content" (PyVal.str "x")
      = (objectSetattr [] "content" (PyVal.str "x"), [])
    ∧ lookupA (objectSetattr [] "content" (PyVal.str "x")) "content"
        = some (PyVal.str "x")
    ∧ ((autoUpdateSetattr true
          (fun _ => DisplayMsg.refresh (.ok (.single "text/html" "")) (.str "w"))
          [] "content" (PyVal.str "x")).snd ≠ []
        ↔ ((true : Bool) = true ∧ ("content" : String) ≠ "display_id")) :=
  ⟨(auto_update_no_update_member
      (fun _ => DisplayMsg.refresh (.ok (.single "text/html" "")) (.str "w"))
      [] "content" (PyVal.str "x")).1,
   (auto_update_no_update_member
      (fun _ => DisplayMsg.refresh (.ok (.single "text/html" "")) (.str "w"))
      [] "content" (PyVal.str "x")).2.1,
   ((auto_update_no_update_member
      (fun _ => DisplayMsg.refresh (.ok (.single "text/html" "")) (.str "w"))
      [] "content" (PyVal.str "x")).2.2 true).2⟩
